import Mathlib

/-!
Verification development for the twitter-langgraph-agent repository.

The two components under study are:

* the Thread Publisher (`src/react_agent/thread_creator.py`,
  `TwitterThreadCreator.create_thread`), embedded here as `createThread`
  over an explicit platform oracle, and
* the Review Workflow (`src/react_agent/content_reviewer.py`,
  `ContentReviewSystem`), embedded as pure state-passing functions over a
  record of three JSON backing files.

Modelling conventions:

* A platform call (`post_tweet` / `reply_tweet`) returns either `none`
  (the Python code's falsy/`None` result) or `some r` with a `success`
  flag, an optional `message`, and the identifier `data.id`.  The remote
  platform is an oracle `api : Nat → ApiResult` consulted once per call,
  in call order; the trace of calls actually issued is returned alongside
  the result so that "no further platform calls" is expressible.
* JSON object collections are insertion-ordered association lists
  (`List (String × α)`), matching Python `dict` semantics: assignment to
  an existing key keeps its position, a new key is appended, and
  `.values()` iterates in insertion order.
* Timestamps are modelled as natural numbers; the repository stores
  ISO-8601 / `strftime` strings whose lexicographic order agrees with
  chronological order, so `created_at` comparisons become `Nat` order and
  the identifier suffixes become `toString now`.
* `status` and `decision` fields are stored as the raw strings the Python
  code writes into the JSON files (`"draft"`, `"reviewing"`, `"approved"`,
  `"rejected"`, `"scheduled"`, `"published"`).
-/

namespace TwitterAgent

/-- Result of one platform call, as used by `create_thread`:
`none` models a falsy/`None` return; otherwise the dict carries a
`success` flag, an optional `message`, and `data.id`. -/
structure ApiResp where
  success : Bool
  message : Option String
  id : String
deriving DecidableEq, Repr

abbrev ApiResult := Option ApiResp

/-- Truthiness test `if not result or not result.get('success')` that
`create_thread` applies to each platform call result. -/
def respOk : ApiResult → Bool
  | none => false
  | some r => r.success

/-- Id extraction `result['data']['id']` (only read on a successful
call; `""` is a junk value for the unreachable `none` case). -/
def respId : ApiResult → String
  | none => ""
  | some r => r.id

/-- One platform call issued by `create_thread`: a root post
(`post_tweet`, `inReplyTo = none`) or a reply
(`reply_tweet(last_tweet_id, content)`). -/
structure PlatformCall where
  isReply : Bool
  inReplyTo : Option String
  body : String
deriving DecidableEq, Repr

/-- The `ThreadResult` dataclass of `thread_creator.py`. -/
structure ThreadResult where
  success : Bool
  tweet_ids : List String
  thread_url : Option String
  error_message : Option String
deriving DecidableEq, Repr

/-- The length guard applied to every post body before submission
(`thread_creator.py` lines 67-68 and 94-95):
`if len(content) > 280: content = content[:277] + "..."`. -/
def truncatePost (s : String) : String :=
  if s.length > 280 then String.mk (s.toList.take 277) ++ "..." else s

/-- The reply loop of `create_thread` (lines 89-109): for each remaining
element, truncate, call `reply_tweet(last_tweet_id, content)`; on success
append the new id and chain further replies to it, on the first failure
break.  `k` is the index of the next platform call in the oracle.
Returns the ids collected by the loop and the calls it issued. -/
def replyChain (api : Nat → ApiResult) : Nat → String → List String →
    List String × List PlatformCall
  | _, _, [] => ([], [])
  | k, lastId, c :: cs =>
    let call : PlatformCall := ⟨true, some lastId, truncatePost c⟩
    match api k with
    | some r =>
      if r.success then
        let rest := replyChain api (k + 1) r.id cs
        (r.id :: rest.1, call :: rest.2)
      else ([], [call])
    | none => ([], [call])

/-- Embedding of `TwitterThreadCreator.create_thread` (lines 53-121): empty input is
rejected outright; otherwise the first element is posted as a root post
(failure returns an empty result), and the remaining elements are posted
as replies via `replyChain`.  The second component is the trace of
platform calls issued. -/
def createThread (api : Nat → ApiResult) (content : List String) :
    ThreadResult × List PlatformCall :=
  match content with
  | [] => (⟨false, [], none, some "线程内容不能为空"⟩, [])
  | first :: rest =>
    let call0 : PlatformCall := ⟨false, none, truncatePost first⟩
    match api 0 with
    | some r =>
      if r.success then
        let chain := replyChain api 1 r.id rest
        let tweetIds := r.id :: chain.1
        (⟨decide (0 < tweetIds.length), tweetIds,
          some ("https://twitter.com/user/status/" ++ r.id),
          if tweetIds.length = (first :: rest).length then none
          else some ("仅发布了" ++ toString tweetIds.length ++ "/" ++
            toString (first :: rest).length ++ "条推文")⟩,
         call0 :: chain.2)
      else
        (⟨false, [], none, some (r.message.getD "第一条推文发布失败")⟩, [call0])
    | none => (⟨false, [], none, some "第一条推文发布失败"⟩, [call0])

/-- The ids handed out by `j` consecutive successful oracle calls starting
at call index `k` — the expected contents of `tweet_ids`. -/
def okIds (api : Nat → ApiResult) : Nat → Nat → List String
  | _, 0 => []
  | k, j + 1 => respId (api k) :: okIds api (k + 1) j

/-- Concrete oracle: root post and first reply succeed, second reply
fails, everything after is unreachable. -/
def apiW : Nat → ApiResult
  | 0 => some ⟨true, none, "t1"⟩
  | 1 => some ⟨true, none, "t2"⟩
  | 2 => some ⟨false, some "rate limited", ""⟩
  | _ => none

/-- Concrete oracle on which every call succeeds. -/
def apiOk : Nat → ApiResult
  | n => some ⟨true, none, "r" ++ toString (n + 1)⟩

/-! ### Review Workflow (`content_reviewer.py`) -/

/-- State of one JSON backing file: absent (`FileNotFoundError` on read),
present but unparseable (`json.JSONDecodeError` on read), or a parsed
object collection. -/
inductive FileState (α : Type) where
  | missing
  | unparseable
  | parsed (entries : List (String × α))
deriving DecidableEq, Repr

/-- Embedding of `ContentReviewSystem._load_data` (lines 94-100): both
`FileNotFoundError` and `json.JSONDecodeError` are caught and the
collection is returned as the empty object `{}`. -/
def loadData {α : Type} : FileState α → List (String × α)
  | FileState.parsed d => d
  | _ => []

/-- Embedding of `ContentReviewSystem._save_data` (lines 102-105): the whole
collection is rewritten, so the file is afterwards present and parsed. -/
def saveData {α : Type} (d : List (String × α)) : FileState α :=
  FileState.parsed d

/-- Python `dict.get`/`dict[k]` over an insertion-ordered collection. -/
def dget {α : Type} (m : List (String × α)) (k : String) : Option α :=
  (m.find? (fun p => p.1 == k)).map (fun p => p.2)

/-- Python `dict[k] = v`: an existing key keeps its position, a new key
is appended at the end. -/
def dset {α : Type} : List (String × α) → String → α → List (String × α)
  | [], k, v => [(k, v)]
  | p :: m, k, v => if p.1 == k then (k, v) :: m else p :: dset m k v

/-- Shape of `content: Union[str, List[str]]` in `ContentDraft`. -/
inductive Content where
  | single (s : String)
  | thread (xs : List String)
deriving DecidableEq, Repr

/-- The `ContentDraft` dataclass, as serialised into `drafts.json`
(`status` is stored as the enum's string value). -/
structure DraftRec where
  draft_id : String
  content_type : String
  content : Content
  metadata : List (String × String)
  status : String
  created_at : Nat
  scheduled_time : Option Nat
deriving DecidableEq, Repr

/-- The `ReviewSession` dataclass, as serialised into `reviews.json`
(`decision` stored as the enum's string value; `modifications` omitted —
always `None` in every caller and never read). -/
structure ReviewRec where
  review_id : String
  draft_id : String
  reviewer_notes : String
  decision : String
  reviewed_at : Nat
deriving DecidableEq, Repr

/-- The `PublishRecord` dataclass, as serialised into `publications.json`
(`performance` omitted — always `None` and never read). -/
structure PubRec where
  publish_id : String
  draft_id : String
  tweet_ids : List String
  published_at : Nat
deriving DecidableEq, Repr

/-- The three backing files of `ContentReviewSystem`. -/
structure ReviewFiles where
  drafts : FileState DraftRec
  reviews : FileState ReviewRec
  publications : FileState PubRec
deriving DecidableEq, Repr

/-- Embedding of `ContentReviewSystem.create_draft` (lines 107-136): allocates
`{content_type}_{timestamp}`, stores the draft with status `"draft"` and
`created_at = now`, and returns the id. -/
def createDraft (s : ReviewFiles) (content_type : String) (content : Content)
    (metadata : List (String × String)) (now : Nat) : String × ReviewFiles :=
  let draft_id := content_type ++ "_" ++ toString now
  let draft : DraftRec :=
    ⟨draft_id, content_type, content, metadata, "draft", now, none⟩
  let drafts := loadData s.drafts
  (draft_id, { s with drafts := saveData (dset drafts draft_id draft) })

/-- Embedding of `ContentReviewSystem.submit_for_review` (lines 190-202): if the id is
present, set its status to `"reviewing"` and return `True`; otherwise
return `False` without writing. -/
def submitForReview (s : ReviewFiles) (draft_id : String) :
    Bool × ReviewFiles :=
  let drafts := loadData s.drafts
  match dget drafts draft_id with
  | some d =>
    let drafts2 := dset drafts draft_id { d with status := "reviewing" }
    (true, { s with drafts := saveData drafts2 })
  | none => (false, s)

/-- Embedding of `ContentReviewSystem.review_content` (lines 204-239): always records a
`ReviewSession` under `review_{draft_id}_{timestamp}`; then, if the draft
exists, overwrites its status with the decision's string value. -/
def reviewContent (s : ReviewFiles) (draft_id : String) (decision : String)
    (notes : String) (now : Nat) : String × ReviewFiles :=
  let review_id := "review_" ++ draft_id ++ "_" ++ toString now
  let rev : ReviewRec := ⟨review_id, draft_id, notes, decision, now⟩
  let reviews2 := dset (loadData s.reviews) review_id rev
  let s1 := { s with reviews := saveData reviews2 }
  let drafts := loadData s1.drafts
  match dget drafts draft_id with
  | some d =>
    let drafts2 := dset drafts draft_id { d with status := decision }
    (review_id, { s1 with drafts := saveData drafts2 })
  | none => (review_id, s1)

/-- Embedding of `ContentReviewSystem.approve_content` (lines 241-243). -/
def approveContent (s : ReviewFiles) (draft_id : String) (notes : String)
    (now : Nat) : String × ReviewFiles :=
  reviewContent s draft_id "approved" notes now

/-- Embedding of `ContentReviewSystem.reject_content` (lines 245-247). -/
def rejectContent (s : ReviewFiles) (draft_id : String) (reason : String)
    (now : Nat) : String × ReviewFiles :=
  reviewContent s draft_id "rejected" reason now

/-- Embedding of `ContentReviewSystem.schedule_content` (lines 262-275): only a
present draft whose status is `"approved"` is moved to `"scheduled"`
with its `scheduled_time` recorded; every other case returns `False`
without writing. -/
def scheduleContent (s : ReviewFiles) (draft_id : String)
    (scheduled_time : Nat) : Bool × ReviewFiles :=
  let drafts := loadData s.drafts
  match dget drafts draft_id with
  | some d =>
    if d.status == "approved" then
      let d2 := { d with status := "scheduled",
                         scheduled_time := some scheduled_time }
      (true, { s with drafts := saveData (dset drafts draft_id d2) })
    else (false, s)
  | none => (false, s)

/-- Embedding of `ContentReviewSystem.mark_as_published` (lines 277-306): always
records a `PublishRecord` under `pub_{draft_id}_{timestamp}` and returns
that id; then, if the draft exists, sets its status to `"published"`. -/
def markAsPublished (s : ReviewFiles) (draft_id : String)
    (tweet_ids : List String) (now : Nat) : String × ReviewFiles :=
  let publish_id := "pub_" ++ draft_id ++ "_" ++ toString now
  let pub : PubRec := ⟨publish_id, draft_id, tweet_ids, now⟩
  let pubs2 := dset (loadData s.publications) publish_id pub
  let s1 := { s with publications := saveData pubs2 }
  let drafts := loadData s1.drafts
  match dget drafts draft_id with
  | some d =>
    let drafts2 := dset drafts draft_id { d with status := "published" }
    (publish_id, { s1 with drafts := saveData drafts2 })
  | none => (publish_id, s1)

/-- Order on drafts used by the review queue: ascending `created_at`. -/
def createdLE (a b : DraftRec) : Prop :=
  a.created_at ≤ b.created_at

instance : DecidableRel createdLE :=
  fun a b => Nat.decLe a.created_at b.created_at

instance : IsTotal DraftRec createdLE :=
  ⟨fun a b => Nat.le_total a.created_at b.created_at⟩

instance : IsTrans DraftRec createdLE :=
  ⟨fun _ _ _ h1 h2 => Nat.le_trans h1 h2⟩

/-- Embedding of `ContentReviewSystem.get_pending_reviews` (lines 148-160): the drafts
whose status is `"draft"` or `"reviewing"`, in collection order, then
stably sorted by `created_at` ascending (Python `list.sort(key=...)`
is a stable ascending sort, as is `List.insertionSort`). -/
def getPendingReviews (s : ReviewFiles) : List DraftRec :=
  let drafts := loadData s.drafts
  let pending := (drafts.map (fun p => p.2)).filter
    (fun d => d.status == "draft" || d.status == "reviewing")
  List.insertionSort createdLE pending

/-- Half-to-even integer rounding, the tie-breaking rule of Python's
built-in `round`, computed on the numerator and denominator: `f` is
`⌊q⌋` and `r` the remainder, so `2 * r` against `d` compares the
fractional part of `q` with `1 / 2`. -/
def roundHalfEven (q : ℚ) : ℤ :=
  let n := q.num
  let d := (q.den : ℤ)
  let f := Int.fdiv n d
  let r := n - f * d
  if 2 * r < d then f
  else if d < 2 * r then f + 1
  else if f % 2 = 0 then f else f + 1

/-- Python `round(x, 1)`. -/
def pyRound1 (q : ℚ) : ℚ :=
  (roundHalfEven (q * 10) : ℚ) / 10

/-- The dict returned by `ContentReviewSystem.get_stats`. -/
structure Stats where
  total_drafts : Nat
  pending_reviews : Nat
  approved_content : Nat
  published_content : Nat
  total_reviews : Nat
  total_publications : Nat
  approval_rate : ℚ
deriving DecidableEq, Repr

/-- Embedding of `ContentReviewSystem.get_stats` (lines 329-351): counts over the
three collections, with
`approval_rate = round(approved_reviews / len(reviews) * 100, 1)` and
`0.0` when there are no review sessions. -/
def getStats (s : ReviewFiles) : Stats :=
  let drafts := loadData s.drafts
  let reviews := loadData s.reviews
  let pubs := loadData s.publications
  let approved_reviews :=
    (reviews.filter (fun p => p.2.decision == "approved")).length
  { total_drafts := drafts.length
    pending_reviews := (drafts.filter
      (fun p => p.2.status == "draft" || p.2.status == "reviewing")).length
    approved_content :=
      (drafts.filter (fun p => p.2.status == "approved")).length
    published_content :=
      (drafts.filter (fun p => p.2.status == "published")).length
    total_reviews := reviews.length
    total_publications := pubs.length
    approval_rate :=
      if reviews.length = 0 then 0
      else pyRound1 ((approved_reviews : ℚ) / (reviews.length : ℚ) * 100) }

/-- The state `_init_storage` produces on first run: three empty parsed
collections. -/
def emptyStore : ReviewFiles :=
  ⟨FileState.parsed [], FileState.parsed [], FileState.parsed []⟩

/-! ### Concrete instances used in witnesses and counterexamples -/

/-- A string of 281 copies of one character, exceeding the platform
limit by one. -/
def longStr : String := String.mk (List.replicate 281 (Char.ofNat 97))

/-- A draft record created at time `i` with the given status. -/
def dW (i : Nat) (st : String) : DraftRec :=
  ⟨"d" ++ toString i, "headlines", Content.single "x", [], st, i, none⟩

/-- Drafts created at times 1 < 2 < 3, inserted in the order 3, 1, 2. -/
def fifoStoreA : ReviewFiles :=
  ⟨FileState.parsed [("d3", dW 3 "draft"), ("d1", dW 1 "draft"),
    ("d2", dW 2 "reviewing")], FileState.parsed [], FileState.parsed []⟩

/-- The same three drafts, inserted in the order 2, 3, 1. -/
def fifoStoreB : ReviewFiles :=
  ⟨FileState.parsed [("d2", dW 2 "reviewing"), ("d3", dW 3 "draft"),
    ("d1", dW 1 "draft")], FileState.parsed [], FileState.parsed []⟩

/-- A review session recorded at time `i` with the given decision. -/
def rvW (i : Nat) (d : String) : ReviewRec :=
  ⟨"r" ++ toString i, "d1", "", d, i⟩

/-- A store holding 3 approved and 1 rejected review sessions. -/
def statsStore4 : ReviewFiles :=
  ⟨FileState.parsed [],
   FileState.parsed [("r1", rvW 1 "approved"), ("r2", rvW 2 "approved"),
    ("r3", rvW 3 "approved"), ("r4", rvW 4 "rejected")],
   FileState.parsed []⟩

/-- Step 1 of the C2 scenario: a fresh draft. -/
def cexStart : ReviewFiles :=
  (createDraft emptyStore "headlines" (Content.single "Hello world") [] 100).2

/-- Step 2: the draft is marked as published. -/
def cexPublished : ReviewFiles :=
  (markAsPublished cexStart "headlines_100" ["12345"] 200).2

/-- Step 3: the published draft is submitted for review again. -/
def cexResub : ReviewFiles :=
  (submitForReview cexPublished "headlines_100").2

/-- A store holding one draft that is already published. -/
def pubDraftW : DraftRec :=
  ⟨"d1", "headlines", Content.single "x", [], "published", 5, none⟩

def pubStoreW : ReviewFiles :=
  ⟨FileState.parsed [("d1", pubDraftW)], FileState.parsed [],
   FileState.parsed []⟩

/-- A store holding one draft that is not approved. -/
def unappStore : ReviewFiles :=
  ⟨FileState.parsed [("d1", dW 1 "draft")], FileState.parsed [],
   FileState.parsed []⟩

/-- All three backing files present but unparseable. -/
def sUnparse : ReviewFiles :=
  ⟨FileState.unparseable, FileState.unparseable, FileState.unparseable⟩

/-- All three backing files absent. -/
def sMissing : ReviewFiles :=
  ⟨FileState.missing, FileState.missing, FileState.missing⟩

/-! ### Helper lemmas: the reply loop -/

lemma replyChain_nil (api : Nat → ApiResult) (k : Nat) (lastId : String) :
    replyChain api k lastId [] = ([], []) := rfl

lemma replyChain_cons_fail (api : Nat → ApiResult) (k : Nat) (lastId c : String)
    (cs : List String) (h : respOk (api k) = false) :
    replyChain api k lastId (c :: cs) = ([], [⟨true, some lastId, truncatePost c⟩]) := by
  unfold replyChain
  cases hk : api k with
  | none => rfl
  | some r =>
    have hs : r.success = false := by simpa [respOk, hk] using h
    simp [hs]

lemma replyChain_cons_ok (api : Nat → ApiResult) (k : Nat) (lastId c : String)
    (cs : List String) (r : ApiResp) (hk : api k = some r) (hs : r.success = true) :
    replyChain api k lastId (c :: cs)
      = (r.id :: (replyChain api (k + 1) r.id cs).1,
         ⟨true, some lastId, truncatePost c⟩ :: (replyChain api (k + 1) r.id cs).2) := by
  simp only [replyChain, hk, hs, if_pos]

lemma okIds_length (api : Nat → ApiResult) :
    ∀ (j k : Nat), (okIds api k j).length = j := by
  intro j
  induction j with
  | zero => intro k; rfl
  | succ j ih => intro k; simp [okIds, ih (k + 1)]

/-- Every reply call issued by the loop replies to the most recently
successfully posted id: the first call replies to `lastId`, and call
`m + 1` replies to the id returned by successful call `m`. -/
lemma replyChain_links (api : Nat → ApiResult) :
    ∀ (cs : List String) (k : Nat) (lastId : String),
    (replyChain api k lastId cs).2.map (fun c => c.inReplyTo)
      = ((lastId :: (replyChain api k lastId cs).1).take
          (replyChain api k lastId cs).2.length).map some := by
  intro cs
  induction cs with
  | nil => intro k lastId; simp [replyChain_nil]
  | cons c cs ih =>
    intro k lastId
    cases hok : respOk (api k) with
    | false =>
      rw [replyChain_cons_fail api k lastId c cs hok]
      simp
    | true =>
      obtain ⟨r, hk, hs⟩ : ∃ r, api k = some r ∧ r.success = true := by
        cases hk : api k with
        | none => simp [respOk, hk] at hok
        | some r => exact ⟨r, rfl, by simpa [respOk, hk] using hok⟩
      rw [replyChain_cons_ok api k lastId c cs r hk hs]
      simpa using ih (k + 1) r.id

/-- Bodies actually submitted by the loop: the truncated contents, in
order, up to and including the first failing call. -/
lemma replyChain_bodies (api : Nat → ApiResult) :
    ∀ (cs : List String) (k : Nat) (lastId : String),
    (replyChain api k lastId cs).2.map (fun c => c.body)
      = (cs.map truncatePost).take (replyChain api k lastId cs).2.length := by
  intro cs
  induction cs with
  | nil => intro k lastId; simp [replyChain_nil]
  | cons c cs ih =>
    intro k lastId
    cases hok : respOk (api k) with
    | false =>
      rw [replyChain_cons_fail api k lastId c cs hok]
      simp
    | true =>
      obtain ⟨r, hk, hs⟩ : ∃ r, api k = some r ∧ r.success = true := by
        cases hk : api k with
        | none => simp [respOk, hk] at hok
        | some r => exact ⟨r, rfl, by simpa [respOk, hk] using hok⟩
      rw [replyChain_cons_ok api k lastId c cs r hk hs]
      simpa using ih (k + 1) r.id

/-- When the first `j` replies succeed and reply `j` fails, the loop
returns exactly the `j` ids of the successful calls and has issued
`j + 1` calls (the failing one included, nothing beyond it). -/
lemma replyChain_stop (api : Nat → ApiResult) :
    ∀ (j : Nat) (cs : List String) (k : Nat) (lastId : String),
    j < cs.length →
    (∀ i, i < j → respOk (api (k + i)) = true) →
    respOk (api (k + j)) = false →
    (replyChain api k lastId cs).1 = okIds api k j ∧
    (replyChain api k lastId cs).2.length = j + 1 := by
  intro j
  induction j with
  | zero =>
    intro cs k lastId hlen _ hfail
    cases cs with
    | nil => simp at hlen
    | cons c cs =>
      rw [replyChain_cons_fail api k lastId c cs (by simpa using hfail)]
      simp [okIds]
  | succ j ih =>
    intro cs k lastId hlen hok hfail
    cases cs with
    | nil => simp at hlen
    | cons c cs =>
      have h0 : respOk (api k) = true := by
        simpa using hok 0 (Nat.succ_pos j)
      obtain ⟨r, hk, hs⟩ : ∃ r, api k = some r ∧ r.success = true := by
        cases hk : api k with
        | none => simp [respOk, hk] at h0
        | some r => exact ⟨r, rfl, by simpa [respOk, hk] using h0⟩
      have hlen' : j < cs.length := by simpa using hlen
      have hok' : ∀ i, i < j → respOk (api (k + 1 + i)) = true := by
        intro i hi
        have := hok (i + 1) (by omega)
        have e : k + (i + 1) = k + 1 + i := by omega
        rwa [e] at this
      have hfail' : respOk (api (k + 1 + j)) = false := by
        have e : k + (j + 1) = k + 1 + j := by omega
        rwa [e] at hfail
      have ihh := ih cs (k + 1) r.id hlen' hok' hfail'
      rw [replyChain_cons_ok api k lastId c cs r hk hs]
      refine ⟨?_, ?_⟩
      · simp [okIds, hk, respId, ihh.1]
      · simp [ihh.2]

/-! ### Helper lemmas: truncation -/

lemma truncatePost_short (s : String) (h : s.length ≤ 280) :
    truncatePost s = s := by
  simp [truncatePost, Nat.not_lt.mpr h]

lemma truncatePost_long (s : String) (h : 280 < s.length) :
    truncatePost s = String.mk (s.toList.take 277) ++ "..." := by
  simp [truncatePost, h]

lemma truncatePost_long_length (s : String) (h : 280 < s.length) :
    (truncatePost s).length = 280 := by
  rw [truncatePost_long s h]
  have hd : s.toList.length = s.length := rfl
  have h277 : (s.toList.take 277).length = 277 := by
    rw [List.length_take, hd]
    omega
  have hmk : (String.mk (s.toList.take 277)).length = 277 := h277
  rw [String.length_append, hmk]
  decide

lemma truncatePost_length_le (s : String) :
    (truncatePost s).length ≤ 280 := by
  by_cases h : s.length ≤ 280
  · rw [truncatePost_short s h]; exact h
  · rw [truncatePost_long_length s (by omega)]

/-! ### Helper lemmas: `createThread` top level -/

lemma createThread_nil (api : Nat → ApiResult) :
    createThread api [] = (⟨false, [], none, some "线程内容不能为空"⟩, []) := rfl

lemma createThread_rootfail (api : Nat → ApiResult) (first : String)
    (rest : List String) (h : respOk (api 0) = false) :
    (createThread api (first :: rest)).1.success = false ∧
    (createThread api (first :: rest)).1.tweet_ids = [] ∧
    (createThread api (first :: rest)).1.thread_url = none ∧
    (createThread api (first :: rest)).2 = [⟨false, none, truncatePost first⟩] := by
  unfold createThread
  cases hk : api 0 with
  | none => simp
  | some r =>
    have hs : r.success = false := by simpa [respOk, hk] using h
    simp [hs]

lemma createThread_rootok (api : Nat → ApiResult) (first : String)
    (rest : List String) (r : ApiResp) (hk : api 0 = some r) (hs : r.success = true) :
    createThread api (first :: rest)
      = (⟨decide (0 < (r.id :: (replyChain api 1 r.id rest).1).length),
          r.id :: (replyChain api 1 r.id rest).1,
          some ("https://twitter.com/user/status/" ++ r.id),
          if (r.id :: (replyChain api 1 r.id rest).1).length = (first :: rest).length
          then none
          else some ("仅发布了" ++ toString (r.id :: (replyChain api 1 r.id rest).1).length
            ++ "/" ++ toString (first :: rest).length ++ "条推文")⟩,
         ⟨false, none, truncatePost first⟩ :: (replyChain api 1 r.id rest).2) := by
  unfold createThread
  rw [hk]
  simp [hs]

/-- All calls issued by the reply loop are replies. -/
lemma replyChain_reply_flag (api : Nat → ApiResult) :
    ∀ (cs : List String) (k : Nat) (lastId : String),
    ∀ call ∈ (replyChain api k lastId cs).2, call.isReply = true := by
  intro cs
  induction cs with
  | nil => intro k lastId call hc; simp [replyChain_nil] at hc
  | cons c cs ih =>
    intro k lastId call hc
    cases hok : respOk (api k) with
    | false =>
      rw [replyChain_cons_fail api k lastId c cs hok] at hc
      simp at hc
      rw [hc]
    | true =>
      obtain ⟨r, hk, hs⟩ : ∃ r, api k = some r ∧ r.success = true := by
        cases hk : api k with
        | none => simp [respOk, hk] at hok
        | some r => exact ⟨r, rfl, by simpa [respOk, hk] using hok⟩
      rw [replyChain_cons_ok api k lastId c cs r hk hs] at hc
      simp at hc
      cases hc with
      | inl h => rw [h]
      | inr h => exact ih (k + 1) r.id call h

/-! ### Claim theorems: Thread Publisher -/

/-- C1. For a non-empty thread whose root post succeeds, whose first `j`
replies succeed and whose reply `j` (0-based) fails, `create_thread`
returns `success = true`, `tweet_ids` holding exactly the ids of the
`j + 1` successfully posted tweets in posting order, the error message
`"仅发布了(j+1)/N条推文"` reporting how many of the `N` intended posts went
out, and issues exactly `j + 2` platform calls — the failing reply is the
last call, so no further calls are made for the remaining elements. -/
theorem thread_partial_failure (api : Nat → ApiResult) (first : String)
    (rest : List String) (j : Nat)
    (hroot : respOk (api 0) = true)
    (hj : j < rest.length)
    (hok : ∀ i, i < j → respOk (api (1 + i)) = true)
    (hfail : respOk (api (1 + j)) = false) :
    (createThread api (first :: rest)).1.success = true ∧
    (createThread api (first :: rest)).1.tweet_ids
      = respId (api 0) :: okIds api 1 j ∧
    (createThread api (first :: rest)).1.tweet_ids.length = j + 1 ∧
    (createThread api (first :: rest)).1.error_message
      = some ("仅发布了" ++ toString (j + 1) ++ "/"
          ++ toString (rest.length + 1) ++ "条推文") ∧
    (createThread api (first :: rest)).2.length = j + 2 := by
  obtain ⟨r, hk, hs⟩ : ∃ r, api 0 = some r ∧ r.success = true := by
    cases hk : api 0 with
    | none => simp [respOk, hk] at hroot
    | some r => exact ⟨r, rfl, by simpa [respOk, hk] using hroot⟩
  have hstop := replyChain_stop api j rest 1 r.id hj hok hfail
  have hids : (replyChain api 1 r.id rest).1 = okIds api 1 j := hstop.1
  have hcalls : (replyChain api 1 r.id rest).2.length = j + 1 := hstop.2
  have hlen : (r.id :: (replyChain api 1 r.id rest).1).length = j + 1 := by
    rw [List.length_cons, hids, okIds_length]
  have hne : ¬((r.id :: (replyChain api 1 r.id rest).1).length
      = (first :: rest).length) := by
    rw [hlen, List.length_cons]
    omega
  rw [createThread_rootok api first rest r hk hs]
  refine ⟨by simp, ?_, ?_, ?_, ?_⟩
  · simp [hids, hk, respId]
  · simpa using hlen
  · simp only [hlen, List.length_cons]
    rw [if_neg (by omega : ¬(j + 1 = rest.length + 1))]
  · simp [hcalls]

/-- Witness for C1: the spec's own scenario — a 5-element thread whose
3rd post (2nd reply) is injected to fail. -/
theorem thread_partial_failure_witness :
    (createThread apiW ["p1", "p2", "p3", "p4", "p5"]).1.success = true ∧
    (createThread apiW ["p1", "p2", "p3", "p4", "p5"]).1.tweet_ids = ["t1", "t2"] ∧
    (createThread apiW ["p1", "p2", "p3", "p4", "p5"]).1.tweet_ids.length = 2 ∧
    (createThread apiW ["p1", "p2", "p3", "p4", "p5"]).1.error_message
      = some "仅发布了2/5条推文" ∧
    (createThread apiW ["p1", "p2", "p3", "p4", "p5"]).2.length = 3 := by
  have h := thread_partial_failure apiW "p1" ["p2", "p3", "p4", "p5"] 1
    (by decide) (by decide) (by decide) (by decide)
  exact ⟨h.1, h.2.1.trans (by decide), h.2.2.1.trans (by decide),
    h.2.2.2.1.trans (by decide), h.2.2.2.2.trans (by decide)⟩

/-- C4. Every body actually submitted to the platform is at most 280
characters: the submitted bodies are a prefix of the elementwise
truncations of the input, and truncation leaves elements of at most 280
characters unchanged while cutting longer ones to 277 characters plus an
ellipsis marker (total 280). -/
theorem thread_length_limit (api : Nat → ApiResult) (content : List String) :
    (∀ call ∈ (createThread api content).2, call.body.length ≤ 280) ∧
    (createThread api content).2.map (fun c => c.body)
      = (content.map truncatePost).take (createThread api content).2.length ∧
    (∀ s : String, s.length ≤ 280 → truncatePost s = s) ∧
    (∀ s : String, 280 < s.length →
      truncatePost s = String.mk (s.toList.take 277) ++ "..." ∧
      (truncatePost s).length = 280) := by
  have hmap : (createThread api content).2.map (fun c => c.body)
      = (content.map truncatePost).take (createThread api content).2.length := by
    cases content with
    | nil => simp [createThread_nil]
    | cons first rest =>
      cases hok : respOk (api 0) with
      | false =>
        have hcf := createThread_rootfail api first rest hok
        rw [hcf.2.2.2]
        simp
      | true =>
        obtain ⟨r, hk, hs⟩ : ∃ r, api 0 = some r ∧ r.success = true := by
          cases hk : api 0 with
          | none => simp [respOk, hk] at hok
          | some r => exact ⟨r, rfl, by simpa [respOk, hk] using hok⟩
        rw [createThread_rootok api first rest r hk hs]
        simpa using replyChain_bodies api rest 1 r.id
  refine ⟨?_, hmap, truncatePost_short, fun s h => ⟨truncatePost_long s h,
    truncatePost_long_length s h⟩⟩
  intro call hc
  have hb : call.body ∈ (createThread api content).2.map (fun c => c.body) :=
    List.mem_map_of_mem _ hc
  rw [hmap] at hb
  have hb2 : call.body ∈ content.map truncatePost := List.mem_of_mem_take hb
  obtain ⟨s, _, hsb⟩ := List.mem_map.mp hb2
  rw [← hsb]
  exact truncatePost_length_le s

set_option maxRecDepth 4000 in
/-- Witness for C4: a short body passes through unchanged and is within
the limit; the 281-character body is truncated to 277 characters plus
the ellipsis marker, landing exactly on 280. -/
theorem thread_length_limit_witness :
    (⟨false, none, "hello"⟩ : PlatformCall).body.length ≤ 280 ∧
    truncatePost "hello" = "hello" ∧
    truncatePost longStr = String.mk (longStr.toList.take 277) ++ "..." ∧
    (truncatePost longStr).length = 280 :=
  ⟨(thread_length_limit apiW ["hello"]).1 ⟨false, none, "hello"⟩ (by decide),
   (thread_length_limit apiW ["hello"]).2.2.1 "hello" (by decide),
   ((thread_length_limit apiW ["hello"]).2.2.2 longStr (by decide)).1,
   ((thread_length_limit apiW ["hello"]).2.2.2 longStr (by decide)).2⟩

/-- C5. If the root post fails, `create_thread` returns `success = false`
with no tweet ids and no thread URL, after exactly one platform call.
If the root post succeeds, the thread URL is derived deterministically
from the root post id, the first stored id is the root's, the first call
is the non-reply root post, and every subsequent call is a reply whose
`in_reply_to` is the id of the most recently successfully posted tweet
(`tweet_ids[m - 1]` for reply call `m`) — a linear chain, not a star. -/
theorem thread_root_linear_chain (api : Nat → ApiResult) (first : String)
    (rest : List String) :
    (respOk (api 0) = false →
      (createThread api (first :: rest)).1.success = false ∧
      (createThread api (first :: rest)).1.tweet_ids = [] ∧
      (createThread api (first :: rest)).1.thread_url = none ∧
      (createThread api (first :: rest)).2.length = 1) ∧
    (respOk (api 0) = true →
      (createThread api (first :: rest)).1.thread_url
        = some ("https://twitter.com/user/status/" ++ respId (api 0)) ∧
      (createThread api (first :: rest)).1.tweet_ids.head?
        = some (respId (api 0)) ∧
      (createThread api (first :: rest)).2.map (fun c => c.inReplyTo)
        = none :: ((createThread api (first :: rest)).1.tweet_ids.take
            ((createThread api (first :: rest)).2.length - 1)).map some ∧
      (createThread api (first :: rest)).2.head?.map (fun c => c.isReply)
        = some false ∧
      (∀ call ∈ (createThread api (first :: rest)).2.tail,
        call.isReply = true)) := by
  constructor
  · intro h
    have hcf := createThread_rootfail api first rest h
    exact ⟨hcf.1, hcf.2.1, hcf.2.2.1, by rw [hcf.2.2.2]; rfl⟩
  · intro h
    obtain ⟨r, hk, hs⟩ : ∃ r, api 0 = some r ∧ r.success = true := by
      cases hk : api 0 with
      | none => simp [respOk, hk] at h
      | some r => exact ⟨r, rfl, by simpa [respOk, hk] using h⟩
    rw [createThread_rootok api first rest r hk hs]
    refine ⟨by simp [hk, respId], by simp [hk, respId], ?_, by simp, ?_⟩
    · have hlinks := replyChain_links api rest 1 r.id
      simpa using hlinks
    · intro call hc
      exact replyChain_reply_flag api rest 1 r.id call (by simpa using hc)

/-- Witness for C5: both branches of the theorem at concrete oracles —
the all-failing oracle for the root-failure branch, and a two-element
thread on the all-succeeding oracle for the linear-chain branch. -/
theorem thread_root_linear_chain_witness :
    ((createThread (fun _ => none) ["a", "b"]).1.success = false ∧
      (createThread (fun _ => none) ["a", "b"]).1.tweet_ids = [] ∧
      (createThread (fun _ => none) ["a", "b"]).2.length = 1) ∧
    ((createThread apiOk ["a", "b"]).1.thread_url
      = some "https://twitter.com/user/status/r1" ∧
      (createThread apiOk ["a", "b"]).2.map (fun c => c.inReplyTo)
        = [none, some "r1"]) := by
  have hf := (thread_root_linear_chain (fun _ => none) "a" ["b"]).1 (by decide)
  have ho := (thread_root_linear_chain apiOk "a" ["b"]).2 (by decide)
  exact ⟨⟨hf.1, hf.2.1, hf.2.2.2⟩,
    ⟨ho.1.trans (by decide), ho.2.2.1.trans (by decide)⟩⟩

/-- C9. On the empty post list, `create_thread` returns `success = false`,
no tweet ids, no thread URL and the non-empty error message
`"线程内容不能为空"`, and issues no platform call at all. -/
theorem thread_empty_input (api : Nat → ApiResult) :
    createThread api [] = (⟨false, [], none, some "线程内容不能为空"⟩, []) ∧
    ("线程内容不能为空" : String) ≠ "" :=
  ⟨rfl, by decide⟩

/-! ### Helper lemmas: the collection dictionary -/

lemma loadData_saveData {α : Type} (d : List (String × α)) :
    loadData (saveData d) = d := rfl

/-- Writing under key `k` makes `k` read back the written value, whether
the key was present (in-place field update) or new (appended entry). -/
lemma dget_dset {α : Type} (m : List (String × α)) (k : String) (v : α) :
    dget (dset m k v) k = some v := by
  induction m with
  | nil => simp [dset, dget, List.find?]
  | cons p m ih =>
    cases hp : p.1 == k with
    | true => simp [dset, hp, dget, List.find?]
    | false =>
      rw [dset]
      simp only [hp]
      simpa [dget, List.find?, hp] using ih

/-! ### Claim theorems: Review Workflow -/

/-- Counterexample to C2 (drafts-status monotonicity): a draft is
created, marked as published, and then submitted for review again; the
call succeeds and the status regresses from `"published"` back to
`"reviewing"`. -/
theorem review_status_regression_cex :
    (dget (loadData cexPublished.drafts) "headlines_100").map (fun d => d.status)
      = some "published" ∧
    (submitForReview cexPublished "headlines_100").1 = true ∧
    (dget (loadData cexResub.drafts) "headlines_100").map (fun d => d.status)
      = some "reviewing" :=
  ⟨by decide, by decide, by decide⟩

/-- C2 (amended). The status transitions are not guarded:
`submit_for_review` moves any present draft to `"reviewing"` regardless
of its current status (including `"published"` and `"rejected"`), and
`review_content` overwrites any present draft's status with the decision
value; only `schedule_content` checks the prior status, refusing any
draft that is not `"approved"`. -/
theorem review_status_overwrite (s : ReviewFiles) (draft_id : String)
    (d : DraftRec) (h : dget (loadData s.drafts) draft_id = some d) :
    (submitForReview s draft_id).1 = true ∧
    dget (loadData (submitForReview s draft_id).2.drafts) draft_id
      = some { d with status := "reviewing" } ∧
    (∀ decision notes now,
      dget (loadData (reviewContent s draft_id decision notes now).2.drafts)
          draft_id
        = some { d with status := decision }) ∧
    (∀ t, d.status ≠ "approved" →
      scheduleContent s draft_id t = (false, s)) := by
  refine ⟨?_, ?_, ?_, ?_⟩
  · simp [submitForReview, h]
  · simp [submitForReview, h, loadData_saveData, dget_dset]
  · intro decision notes now
    simp [reviewContent, h, loadData_saveData, dget_dset]
  · intro t hne
    have hb : (d.status == "approved") = false := by
      simpa using hne
    simp [scheduleContent, h, hb]

/-- Witness for the amended C2: a store holding a published draft; the
resubmission succeeds and regresses the status, and scheduling is
refused without touching the store. -/
theorem review_status_overwrite_witness :
    (submitForReview pubStoreW "d1").1 = true ∧
    dget (loadData (submitForReview pubStoreW "d1").2.drafts) "d1"
      = some { pubDraftW with status := "reviewing" } ∧
    scheduleContent pubStoreW "d1" 7 = (false, pubStoreW) := by
  have h := review_status_overwrite pubStoreW "d1" pubDraftW (by decide)
  exact ⟨h.1, h.2.1, h.2.2.2 7 (by decide)⟩

/-- Counterexample to C3 (unparseable storage propagated as an error):
`_load_data` catches `json.JSONDecodeError` exactly like
`FileNotFoundError`, so an existing-but-unparseable drafts file is
indistinguishable from a missing one — reads see an empty collection,
`get_stats`/`get_pending_reviews` proceed normally, and the next
`create_draft` silently rewrites the file with only the new draft,
discarding whatever the unreadable file held. -/
theorem storage_unparseable_cex :
    loadData (FileState.unparseable : FileState DraftRec)
      = loadData (FileState.missing : FileState DraftRec) ∧
    getPendingReviews sUnparse = getPendingReviews sMissing ∧
    getStats sUnparse = getStats sMissing ∧
    (createDraft sUnparse "headlines" (Content.single "x") [] 7).2.drafts
      = FileState.parsed [("headlines_7",
          ⟨"headlines_7", "headlines", Content.single "x", [], "draft", 7, none⟩)] :=
  ⟨rfl, rfl, rfl, by decide⟩

/-- C3 (amended). Both the absence of a backing file and a present but
unparseable backing file are treated as the empty collection; no
distinguishable error is raised, operations behave identically in the
two cases, and a subsequent write replaces the unreadable file with just
the newly written data. -/
theorem storage_unparseable_as_empty (α : Type) (s : ReviewFiles)
    (ct : String) (c : Content) (md : List (String × String)) (now : Nat) :
    loadData (FileState.unparseable : FileState α)
      = loadData (FileState.missing : FileState α) ∧
    createDraft { s with drafts := FileState.unparseable } ct c md now
      = createDraft { s with drafts := FileState.missing } ct c md now ∧
    (createDraft { s with drafts := FileState.unparseable } ct c md now).2.drafts
      = FileState.parsed [(ct ++ "_" ++ toString now,
          ⟨ct ++ "_" ++ toString now, ct, c, md, "draft", now, none⟩)] :=
  ⟨rfl, rfl, rfl⟩

unseal Rat.mul Rat.inv in
/-- C6. `get_stats` reports `approval_rate = 0` when there are no review
sessions, and otherwise the approved-session share times 100 rounded to
one decimal; concretely 3 approvals and 1 rejection give 75 and the
empty store gives 0. -/
theorem stats_approval_rate (s : ReviewFiles) :
    ((loadData s.reviews).length = 0 → (getStats s).approval_rate = 0) ∧
    ((loadData s.reviews).length ≠ 0 →
      (getStats s).approval_rate
        = pyRound1 ((((loadData s.reviews).filter
            (fun p => p.2.decision == "approved")).length : ℚ)
            / ((loadData s.reviews).length : ℚ) * 100)) ∧
    (getStats statsStore4).approval_rate = 75 ∧
    (getStats emptyStore).approval_rate = 0 := by
  refine ⟨?_, ?_, by decide, by decide⟩
  · intro h; simp [getStats, h]
  · intro h; simp [getStats, h]

/-- Witness for C6 at the 3-approvals-1-rejection store. -/
theorem stats_approval_rate_witness :
    (loadData statsStore4.reviews).length ≠ 0 ∧
    (getStats statsStore4).approval_rate
      = pyRound1 ((((loadData statsStore4.reviews).filter
          (fun p => p.2.decision == "approved")).length : ℚ)
          / ((loadData statsStore4.reviews).length : ℚ) * 100) :=
  ⟨by decide, (stats_approval_rate statsStore4).2.1 (by decide)⟩

/-- C7. `get_pending_reviews` returns exactly (as a multiset) the stored
drafts whose status is `"draft"` or `"reviewing"`, sorted by `created_at`
ascending; concretely, drafts created at 1 < 2 < 3 come back in that
order under two different insertion orders. -/
theorem pending_reviews_fifo (s : ReviewFiles) :
    List.Perm (getPendingReviews s)
      (((loadData s.drafts).map (fun p => p.2)).filter
        (fun d => d.status == "draft" || d.status == "reviewing")) ∧
    List.Sorted createdLE (getPendingReviews s) ∧
    (∀ d ∈ getPendingReviews s,
      d.status = "draft" ∨ d.status = "reviewing") ∧
    getPendingReviews fifoStoreA
      = [dW 1 "draft", dW 2 "reviewing", dW 3 "draft"] ∧
    getPendingReviews fifoStoreB
      = [dW 1 "draft", dW 2 "reviewing", dW 3 "draft"] := by
  refine ⟨List.perm_insertionSort createdLE _,
    List.sorted_insertionSort createdLE _, ?_, by decide, by decide⟩
  intro d hd
  have hmem : d ∈ ((loadData s.drafts).map (fun p => p.2)).filter
      (fun d => d.status == "draft" || d.status == "reviewing") :=
    (List.perm_insertionSort createdLE _).mem_iff.mp hd
  have := List.of_mem_filter hmem
  simpa using this

/-- Witness for C7: the oldest pending draft of the concrete store is
pending because its status is `"draft"`. -/
theorem pending_reviews_fifo_witness :
    (dW 1 "draft").status = "draft" ∨ (dW 1 "draft").status = "reviewing" :=
  (pending_reviews_fifo fifoStoreA).2.2.1 (dW 1 "draft") (by decide)

/-- C8. `mark_as_published` always returns
`pub_{draft_id}_{timestamp}` and persists a publish record carrying the
given `draft_id` and tweet ids under that key — even when the draft id
matches no stored draft, in which case the drafts file is left
untouched. -/
theorem mark_published_total (s : ReviewFiles) (draft_id : String)
    (tweet_ids : List String) (now : Nat) :
    (markAsPublished s draft_id tweet_ids now).1
      = "pub_" ++ draft_id ++ "_" ++ toString now ∧
    dget (loadData (markAsPublished s draft_id tweet_ids now).2.publications)
        ("pub_" ++ draft_id ++ "_" ++ toString now)
      = some ⟨"pub_" ++ draft_id ++ "_" ++ toString now, draft_id, tweet_ids, now⟩ ∧
    (dget (loadData s.drafts) draft_id = none →
      (markAsPublished s draft_id tweet_ids now).2.drafts = s.drafts) := by
  refine ⟨?_, ?_, ?_⟩
  · cases hd : dget (loadData s.drafts) draft_id <;>
      simp [markAsPublished, hd]
  · cases hd : dget (loadData s.drafts) draft_id <;>
      simp [markAsPublished, hd, loadData_saveData, dget_dset]
  · intro h
    simp [markAsPublished, h]

/-- Witness for C8: publishing against an id absent from an empty drafts
collection records the publish record and leaves the drafts file as it
was. -/
theorem mark_published_total_witness :
    dget (loadData (markAsPublished emptyStore "ghost" ["1"] 9).2.publications)
        ("pub_" ++ "ghost" ++ "_" ++ toString 9)
      = some ⟨"pub_" ++ "ghost" ++ "_" ++ toString 9, "ghost", ["1"], 9⟩ ∧
    (markAsPublished emptyStore "ghost" ["1"] 9).2.drafts = emptyStore.drafts :=
  ⟨(mark_published_total emptyStore "ghost" ["1"] 9).2.1,
   (mark_published_total emptyStore "ghost" ["1"] 9).2.2 rfl⟩

/-- C10. `schedule_content` returns `False` exactly when the draft is
absent or its status is not `"approved"`, and in that case the whole
store — drafts collection included — is exactly as before the call: no
status change and no `scheduled_time` is recorded. -/
theorem schedule_content_guard (s : ReviewFiles) (draft_id : String) (t : Nat) :
    ((scheduleContent s draft_id t).1 = false ↔
      ∀ d, dget (loadData s.drafts) draft_id = some d →
        d.status ≠ "approved") ∧
    ((scheduleContent s draft_id t).1 = false →
      (scheduleContent s draft_id t).2 = s) := by
  cases hd : dget (loadData s.drafts) draft_id with
  | none => simp [scheduleContent, hd]
  | some d =>
    by_cases hs : d.status = "approved"
    · simp [scheduleContent, hd, hs]
    · have hb : (d.status == "approved") = false := by simpa using hs
      simp [scheduleContent, hd, hb, hs]

/-- Witness for C10: scheduling a draft that is still in `"draft"`
status fails and leaves the store unchanged. -/
theorem schedule_content_guard_witness :
    (scheduleContent unappStore "d1" 7).2 = unappStore :=
  (schedule_content_guard unappStore "d1" 7).2 (by decide)

end TwitterAgent
